import Mathlib

/-!
Formalization of the vnc-use agent core: the safety verdict classifiers
(src/vnc_use/safety.py), coordinate denormalization and the VNC action
executor (src/vnc_use/backends/vnc.py), and the LangGraph orchestration
loop (src/vnc_use/agent.py), as a shallow embedding.  External effects
(the planner, the VNC server, wall-clock time and the human-in-the-loop
decision) are modeled as oracles supplied by environment records.
-/

namespace VncUse

/-- Raw PNG screenshot bytes; Python `bytes` is modeled as a list of byte
values, with the empty list playing the role of `b""` (falsy in Python). -/
abbrev Bytes := List Nat

/-- ASCII lowering of one character, modeling Python `str.lower` on the
ASCII range (the only strings the agent lowers are verdict actions). -/
def lowerChar (c : Char) : Char :=
  if 'A' ≤ c ∧ c ≤ 'Z' then Char.ofNat (c.toNat + 32) else c

/-- ASCII lowering of a string, modeling Python `str.lower`. -/
def lowerStr (s : String) : String := String.mk (s.data.map lowerChar)

/-- Does `needle` occur as a contiguous sublist?  Models Python's
substring test `needle in hay` at the character-list level. -/
def containsSub (needle : List Char) : List Char → Bool
  | [] => needle.isPrefixOf []
  | c :: rest => needle.isPrefixOf (c :: rest) || containsSub needle rest

/-- Python `needle in hay` on strings. -/
def strContains (hay needle : String) : Bool := containsSub needle.data hay.data

/-- Case-insensitive substring test (the wording used by the spec for the
confirmation classifier). -/
def caseInsensitiveContains (hay needle : String) : Bool :=
  strContains (lowerStr hay) (lowerStr needle)

/-- A safety-verdict dict from the planner (safety.py).  `action` and
`reason` model the like-named dict keys; a missing key is `none`.
Python's early `if not safety_decision` return also fires on an empty
dict; an empty dict corresponds to both fields `none`, for which the
classifiers below return `false` exactly as that early return does. -/
structure SafetyDecision where
  action : Option String := none
  reason : Option String := none
deriving DecidableEq, Repr

/-- safety.py `requires_confirmation`. -/
def requires_confirmation (safety_decision : Option SafetyDecision) : Bool :=
  match safety_decision with
  | none => false
  | some d =>
    let action := lowerStr (d.action.getD "")
    strContains action "confirm" || action == "require_confirmation"

/-- safety.py `should_block`. -/
def should_block (safety_decision : Option SafetyDecision) : Bool :=
  match safety_decision with
  | none => false
  | some d =>
    let action := lowerStr (d.action.getD "")
    action == "block" || action == "deny" || action == "reject"

/-- Python `round` (half to even) of `n / 1000` taken on the exact
rational value.  For the products `coord * axis` arising here the float
the source computes is the correctly rounded quotient and every tie lands
on an exactly representable half, so exact rational rounding is a
faithful model of `round(n / 1000)`. -/
def pyRound1000 (n : Nat) : Nat :=
  if n % 1000 < 500 then n / 1000
  else if 500 < n % 1000 then n / 1000 + 1
  else if n / 1000 % 2 = 0 then n / 1000 else n / 1000 + 1

/-- backends/vnc.py `denorm_x`: `round(x * width / 1000)`. -/
def denorm_x (x width : Nat) : Nat := pyRound1000 (x * width)

/-- backends/vnc.py `denorm_y`: `round(y * height / 1000)`. -/
def denorm_y (y height : Nat) : Nat := pyRound1000 (y * height)

/-- One injected input primitive sent to the vncdotool client. -/
inductive InputEvent where
  | mouseMove (x y : Nat)
  | mousePress (button : Nat)
  | mouseDown (button : Nat)
  | mouseUp (button : Nat)
  | mouseDrag (x y : Nat)
  | keyPress (key : String)
deriving DecidableEq, Repr

/-- State of backends/vnc.py `VNCController`: the connection flag
(`client is not None`), the cached screen size (`_screen_size`), and the
trace of input events injected so far. -/
structure VncState where
  connected : Bool
  screenSize : Option (Nat × Nat)
  events : List InputEvent
deriving DecidableEq, Repr

/-- Environment for the VNC backend: the outcome the server would give a
screen capture; `none` models `captureScreen` or the temp-file IO
raising, `some (png, w, h)` a capture of the given bytes and size. -/
structure VncEnv where
  capture : Option (Bytes × Nat × Nat)

/-- backends/vnc.py `VNCController.screenshot_png`: raises when not
connected or when the capture fails; on success caches the screen size
read from the image. -/
def screenshotPng (env : VncEnv) (s : VncState) : Except String (VncState × Bytes) :=
  if s.connected then
    match env.capture with
    | some (png, w, h) => .ok ({ s with screenSize := some (w, h) }, png)
    | none => .error "screenshot capture failed"
  else .error "Not connected to VNC server"

/-- backends/vnc.py `VNCController.get_screen_size`. -/
def getScreenSize (s : VncState) : Except String (Nat × Nat) :=
  match s.screenSize with
  | some wh => .ok wh
  | none => .error "Screen size unknown; capture screenshot first"

/-- backends/vnc.py `VNCController.move`. -/
def vncMove (s : VncState) (x y : Nat) : Except String VncState :=
  if s.connected then .ok { s with events := s.events ++ [.mouseMove x y] }
  else .error "Not connected to VNC server"

/-- backends/vnc.py `VNCController.click` (move first, then press). -/
def vncClick (s : VncState) (x y button : Nat) : Except String VncState :=
  if s.connected then
    .ok { s with events := s.events ++ [.mouseMove x y, .mousePress button] }
  else .error "Not connected to VNC server"

/-- backends/vnc.py `VNCController.type_text`: optional select-all +
delete, one key press per character, optional trailing Enter. -/
def vncTypeText (s : VncState) (text : String) (pressEnter clearFirst : Bool) :
    Except String VncState :=
  if s.connected then
    let clearEvents : List InputEvent :=
      if clearFirst then [.keyPress "ctrl-a", .keyPress "delete"] else []
    let textEvents : List InputEvent :=
      text.data.map (fun ch => .keyPress (String.mk [ch]))
    let enterEvents : List InputEvent :=
      if pressEnter then [.keyPress "enter"] else []
    .ok { s with events := s.events ++ clearEvents ++ textEvents ++ enterEvents }
  else .error "Not connected to VNC server"

/-- backends/vnc.py `VNCController.key_combo`: normalize separators and
send one chorded key press. -/
def vncKeyCombo (s : VncState) (keys : String) : Except String VncState :=
  if s.connected then
    let normalized := (keys.replace "+" "-").replace "control" "ctrl"
    .ok { s with events := s.events ++ [.keyPress normalized] }
  else .error "Not connected to VNC server"

/-- backends/vnc.py `VNCController.scroll`: paging-key repetition,
`max 1 (magnitude / 400)` presses; an unknown direction raises (the
`key_map[direction]` lookup). -/
def vncScroll (s : VncState) (direction : String) (magnitude : Nat) :
    Except String VncState :=
  if s.connected then
    match (match direction with
           | "up" => some "pgup"
           | "down" => some "pgdn"
           | "left" => some "left"
           | "right" => some "right"
           | _ => none) with
    | some key =>
      let repeats := max 1 (magnitude / 400)
      .ok { s with events := s.events ++ List.replicate repeats (.keyPress key) }
    | none => .error ("KeyError: " ++ direction)
  else .error "Not connected to VNC server"

/-- backends/vnc.py `VNCController.drag_and_drop`. -/
def vncDragAndDrop (s : VncState) (x0 y0 x1 y1 : Nat) : Except String VncState :=
  if s.connected then
    .ok { s with events := s.events ++
            [.mouseMove x0 y0, .mouseDown 1, .mouseDrag x1 y1, .mouseUp 1] }
  else .error "Not connected to VNC server"

/-- types.py `ActionResult`. -/
structure ActionResult where
  success : Bool
  error : Option String := none
  screenshot_png : Bytes
  url : String := ""
deriving DecidableEq, Repr

/-- The argument dict of a Computer Use action, shallowly embedded as one
optional field per key the executor reads; a `none` required field models
the `KeyError` the Python dict lookup raises.  Normalized coordinates are
0-999 integers (types.py field bounds). -/
structure ActionArgs where
  x : Option Nat := none
  y : Option Nat := none
  destination_x : Option Nat := none
  destination_y : Option Nat := none
  text : Option String := none
  press_enter : Option Bool := none
  clear_before_typing : Option Bool := none
  keys : Option String := none
  direction : Option String := none
  magnitude : Option Nat := none
deriving DecidableEq, Repr

/-- Required-key dict access, `args[k]`: raises `KeyError` when absent. -/
def reqArg {α : Type} (v : Option α) (k : String) : Except String α :=
  match v with
  | some a => .ok a
  | none => .error ("KeyError: " ++ k)

/-- The action dispatch inside `execute_action`'s `try` block (after
`get_screen_size`, before the post-action capture).  Returns the state
after whatever events were injected plus the raised message, if any. -/
def dispatchAction (s : VncState) (action_name : String) (args : ActionArgs)
    (width height : Nat) : VncState × Option String :=
  match action_name with
  | "click_at" =>
    match (do
      let x ← reqArg args.x "x"
      let y ← reqArg args.y "y"
      vncClick s (denorm_x x width) (denorm_y y height) 1) with
    | .ok s1 => (s1, none)
    | .error e => (s, some e)
  | "hover_at" =>
    match (do
      let x ← reqArg args.x "x"
      let y ← reqArg args.y "y"
      vncMove s (denorm_x x width) (denorm_y y height)) with
    | .ok s1 => (s1, none)
    | .error e => (s, some e)
  | "type_text_at" =>
    match (do
      let x ← reqArg args.x "x"
      let y ← reqArg args.y "y"
      let text ← reqArg args.text "text"
      let s1 ← vncClick s (denorm_x x width) (denorm_y y height) 1
      vncTypeText s1 text (args.press_enter.getD false)
        (args.clear_before_typing.getD false)) with
    | .ok s1 => (s1, none)
    | .error e => (s, some e)
  | "key_combination" =>
    match (do
      let keys ← reqArg args.keys "keys"
      vncKeyCombo s keys) with
    | .ok s1 => (s1, none)
    | .error e => (s, some e)
  | "scroll_document" =>
    match (do
      let direction ← reqArg args.direction "direction"
      vncScroll s direction (args.magnitude.getD 800)) with
    | .ok s1 => (s1, none)
    | .error e => (s, some e)
  | "scroll_at" =>
    match (do
      let x ← reqArg args.x "x"
      let y ← reqArg args.y "y"
      vncMove s (denorm_x x width) (denorm_y y height)) with
    | .ok s1 =>
      match (do
        let direction ← reqArg args.direction "direction"
        vncScroll s1 direction (args.magnitude.getD 800)) with
      | .ok s2 => (s2, none)
      | .error e => (s1, some e)
    | .error e => (s, some e)
  | "drag_and_drop" =>
    match (do
      let x ← reqArg args.x "x"
      let y ← reqArg args.y "y"
      let dx ← reqArg args.destination_x "destination_x"
      let dy ← reqArg args.destination_y "destination_y"
      vncDragAndDrop s (denorm_x x width) (denorm_y y height)
        (denorm_x dx width) (denorm_y dy height)) with
    | .ok s1 => (s1, none)
    | .error e => (s, some e)
  | "open_web_browser" => (s, none)
  | _ => (s, some ("Unknown action: " ++ action_name))

/-- The `except` branch of `execute_action`: best-effort capture for
debugging, empty bytes if even that fails, `success=False`. -/
def executeActionFailure (env : VncEnv) (s : VncState) (e : String) :
    VncState × ActionResult :=
  match screenshotPng env s with
  | .ok (s2, png) => (s2, { success := false, error := some e, screenshot_png := png })
  | .error _ => (s, { success := false, error := some e, screenshot_png := [] })

/-- backends/vnc.py `VNCController.execute_action`: resolve the screen
size, dispatch the named action, then capture a fresh frame; any raise is
converted into a failed `ActionResult` with a best-effort capture. -/
def execute_action (env : VncEnv) (s : VncState) (action_name : String)
    (args : ActionArgs) : VncState × ActionResult :=
  match getScreenSize s with
  | .error e => executeActionFailure env s e
  | .ok (width, height) =>
    match dispatchAction s action_name args width height with
    | (s1, some e) => executeActionFailure env s1 e
    | (s1, none) =>
      match screenshotPng env s1 with
      | .ok (s2, png) => (s2, { success := true, error := none, screenshot_png := png })
      | .error e => executeActionFailure env s1 e

/-- agent.py `VncUseAgent.__init__`: the default `excluded_actions`. -/
def defaultExcludedActions : List String :=
  ["open_web_browser", "navigate", "go_back", "go_forward", "search"]

/-- A planner function call `{name, args}`.  At the orchestration level the
loop never interprets the argument values; it only renders them into the
text history, so argument values are kept in rendered form. -/
structure Call where
  name : String
  args : List (String × String) := []
deriving DecidableEq, Repr

/-- types.py `StepLog`. -/
structure StepLog where
  step_number : Nat
  observation : String
  proposed_actions : List Call
  executed_action : Call
  result : String
  screenshot_path : Option String
  timestamp : Nat
deriving DecidableEq, Repr

/-- types.py `CUAState`.  `last_screenshot_png = []` plays the role of the
falsy values `None` and `b""` tested by `if not screenshot_png`.
`start_time` is replaced by the environment's elapsed-time oracle.  The
`observation` and `proposed_actions` keys written by the propose node and
read back with `state.get(..., default)` are carried as fields with the
corresponding defaults. -/
structure CUAState where
  task : String
  action_history : List String
  step_logs : List StepLog
  pending_calls : List Call
  last_screenshot_png : Bytes
  step : Nat
  done : Bool
  safety : Option SafetyDecision
  error : Option String
  observation : String
  proposed_actions : List Call
deriving DecidableEq, Repr

/-- A node's returned update dict: `none` means the key is absent from the
returned dict, so the LangGraph channel keeps its previous value. -/
structure Update where
  action_history : Option (List String) := none
  step_logs : Option (List StepLog) := none
  pending_calls : Option (List Call) := none
  last_screenshot_png : Option Bytes := none
  step : Option Nat := none
  done : Option Bool := none
  safety : Option (Option SafetyDecision) := none
  error : Option (Option String) := none
  observation : Option String := none
  proposed_actions : Option (List Call) := none
deriving DecidableEq, Repr

/-- LangGraph state merge: each key present in the update replaces the
channel value, absent keys are untouched. -/
def applyUpdate (s : CUAState) (u : Update) : CUAState :=
  { task := s.task
    action_history := u.action_history.getD s.action_history
    step_logs := u.step_logs.getD s.step_logs
    pending_calls := u.pending_calls.getD s.pending_calls
    last_screenshot_png := u.last_screenshot_png.getD s.last_screenshot_png
    step := u.step.getD s.step
    done := u.done.getD s.done
    safety := u.safety.getD s.safety
    error := u.error.getD s.error
    observation := u.observation.getD s.observation
    proposed_actions := u.proposed_actions.getD s.proposed_actions }

/-- agent.py `VncUseAgent` construction parameters used by the loop.
`useCallback` records whether a `hitl_callback` was supplied;
`hasRunLogger` whether `run_logger` is set (it always is inside `run`). -/
structure AgentConfig where
  step_limit : Nat := 40
  seconds_timeout : Nat := 300
  hitl_mode : Bool := true
  useCallback : Bool := false
  hasRunLogger : Bool := true

/-- One successful planner response: extracted text observation, extracted
function calls and extracted safety decision. -/
structure PlannerResponse where
  observation : String := ""
  calls : List Call := []
  safety : Option SafetyDecision := none
deriving DecidableEq, Repr

/-- Outcome of one `generate_stateless` + extraction round: a response, or
an exception whose `str(e)` is the given message. -/
inductive PlannerOutcome where
  | ok (resp : PlannerResponse)
  | exc (msg : String)
deriving DecidableEq, Repr

/-- Outcome of one `_act_node` `try` body around `vnc.execute_action` and
screenshot logging: either an `ActionResult` (its `error` field and the
post-action frame), or a raised exception together with the best-effort
`screenshot_png()` retry (`none` when that capture also raises, which the
code turns into `b""`). -/
inductive ExecOutcome where
  | ok (error : Option String) (screenshot : Bytes)
  | exc (msg : String) (capture : Option Bytes)
deriving DecidableEq, Repr

/-- The frame stored into `last_screenshot_png` by `_act_node` for a given
executor outcome. -/
def execScreenshot : ExecOutcome → Bytes
  | .ok _ screenshot => screenshot
  | .exc _ capture => capture.getD []

/-- Outcome of one `hitl_callback` invocation: a boolean, or a raise. -/
inductive CallbackOutcome where
  | ok (approved : Bool)
  | exc (msg : String)
deriving DecidableEq, Repr

/-- Oracles for everything external to the loop, each indexed by how many
times it has been consulted: planner responses, wall-clock elapsed seconds
read at the top of each propose entry, executor outcomes, HITL callback
results and HITL interrupt decision strings. -/
structure Env where
  planner : Nat → PlannerOutcome
  elapsed : Nat → Nat
  exec : Nat → Call → ExecOutcome
  hitlCallback : Nat → CallbackOutcome
  hitlInterrupt : Nat → String
  now : Nat → Nat

/-- Truthiness of `result.error` (`None` and `""` are falsy). -/
def strOptTruthy : Option String → Bool
  | none => false
  | some s => !s.isEmpty

/-- Zero-padded step number, Python `f"{step:03d}"`. -/
def pad3 (n : Nat) : String :=
  if n < 10 then "00" ++ toString n
  else if n < 100 then "0" ++ toString n
  else toString n

/-- logging_utils.py `RunLogger.log_screenshot` filename
(`f"step_{step:03d}_{label}.png"`), whose `.name` lands in the step log. -/
def logScreenshotName (step : Nat) (label : String) : String :=
  "step_" ++ pad3 step ++ "_" ++ label ++ ".png"

/-- `", ".join(f"{k}={v}" for k, v in args.items())`. -/
def fmtArgs (args : List (String × String)) : String :=
  String.intercalate ", " (args.map (fun kv => kv.1 ++ "=" ++ kv.2))

/-- `safety_decision.get("reason", "Unknown")` in `_propose_node`'s block
branch. -/
def blockReason (sd : Option SafetyDecision) : String :=
  match sd with
  | some d => d.reason.getD "Unknown"
  | none => "Unknown"

/-- agent.py `_propose_node`.  `proposeIdx` counts entries into the node
(indexing the elapsed-time reading), `plannerIdx` counts planner
invocations.  Returns the update dict plus whether the planner was
actually invoked. -/
def proposeNode (cfg : AgentConfig) (env : Env) (proposeIdx plannerIdx : Nat)
    (s : CUAState) : Update × Bool :=
  if cfg.step_limit ≤ s.step then
    ({ done := some true,
       error := some (some ("Step limit reached: " ++ toString cfg.step_limit)) },
     false)
  else if cfg.seconds_timeout ≤ env.elapsed proposeIdx then
    ({ done := some true,
       error := some (some ("Timeout reached: " ++ toString cfg.seconds_timeout ++ "s")) },
     false)
  else if s.last_screenshot_png = [] then
    ({ done := some true, error := some (some "No screenshot available") }, false)
  else
    match env.planner plannerIdx with
    | .exc msg => ({ done := some true, error := some (some msg) }, true)
    | .ok resp =>
      if resp.calls = [] then
        ({ done := some true, pending_calls := some [],
           safety := some resp.safety, observation := some resp.observation }, true)
      else if should_block resp.safety then
        ({ done := some true,
           error := some (some ("Blocked by safety: " ++ blockReason resp.safety)),
           safety := some resp.safety, observation := some resp.observation }, true)
      else
        ({ pending_calls := some resp.calls, safety := some resp.safety,
           step := some (s.step + 1), observation := some resp.observation,
           proposed_actions := some resp.calls }, true)

/-- agent.py `_act_node`: pop the head of `pending_calls`, execute it,
append the text-history line and the `StepLog`; on a raise inside the
`try`, record the exception, keep the best-effort frame, and also write
`error` into the update while the run continues. -/
def actNode (cfg : AgentConfig) (env : Env) (execIdx : Nat) (s : CUAState) : Update :=
  match s.pending_calls with
  | [] => { done := some true }
  | call :: remaining =>
    let action_text := "Executed " ++ call.name ++ "(" ++ fmtArgs call.args ++ ")"
    let step_number := s.step
    match env.exec execIdx call with
    | .ok resultError screenshot =>
      let action_text2 :=
        if strOptTruthy resultError then action_text ++ " - Error: " ++ resultError.getD ""
        else action_text ++ " - Success"
      let result_text :=
        if strOptTruthy resultError then "Error: " ++ resultError.getD "" else "Success"
      let screenshot_path : Option String :=
        if cfg.hasRunLogger && !screenshot.isEmpty then
          some (logScreenshotName step_number ("step_" ++ pad3 step_number ++ "_after"))
        else none
      let log : StepLog :=
        { step_number := step_number, observation := s.observation,
          proposed_actions := s.proposed_actions, executed_action := call,
          result := result_text, screenshot_path := screenshot_path,
          timestamp := env.now execIdx }
      { pending_calls := some remaining,
        last_screenshot_png := some screenshot,
        action_history := some (s.action_history ++ [action_text2]),
        step_logs := some (s.step_logs ++ [log]) }
    | .exc msg capture =>
      let screenshot := capture.getD []
      let action_text2 := action_text ++ " - Exception: " ++ msg
      let result_text := "Exception: " ++ msg
      let screenshot_path : Option String :=
        if cfg.hasRunLogger && !screenshot.isEmpty then
          some (logScreenshotName step_number ("step_" ++ pad3 step_number ++ "_error"))
        else none
      let log : StepLog :=
        { step_number := step_number, observation := s.observation,
          proposed_actions := s.proposed_actions, executed_action := call,
          result := result_text, screenshot_path := screenshot_path,
          timestamp := env.now execIdx }
      { pending_calls := some remaining,
        last_screenshot_png := some screenshot,
        action_history := some (s.action_history ++ [action_text2]),
        step_logs := some (s.step_logs ++ [log]),
        error := some (some msg) }

/-- agent.py `_hitl_gate_node`: consult the callback when one was
configured, the LangGraph interrupt decision string otherwise.  Approval
returns the empty update; denial and a raising callback end the run. -/
def hitlGateNode (cfg : AgentConfig) (env : Env) (hitlIdx : Nat)
    (_s : CUAState) : Update :=
  if cfg.useCallback then
    match env.hitlCallback hitlIdx with
    | .ok approved =>
      if approved then {}
      else { done := some true, error := some (some "User denied action") }
    | .exc e =>
      { done := some true, error := some (some ("HITL callback failed: " ++ e)) }
  else
    if env.hitlInterrupt hitlIdx = "deny" then
      { done := some true, error := some (some "User denied action") }
    else {}

/-- The graph's nodes plus the `END` vertex. -/
inductive Node where
  | propose
  | hitlGate
  | act
  | terminal
deriving DecidableEq, Repr

/-- agent.py `_route_after_propose`. -/
def routeAfterPropose (cfg : AgentConfig) (s : CUAState) : Node :=
  if s.done then .terminal
  else if cfg.hitl_mode && requires_confirmation s.safety then .hitlGate
  else .act

/-- agent.py `_route_after_hitl`. -/
def routeAfterHitl (s : CUAState) : Node :=
  if s.done then .terminal else .act

/-- Full run configuration: channel state, the node about to execute, and
one consultation counter per oracle. -/
structure RunState where
  st : CUAState
  node : Node
  proposeCount : Nat
  plannerCalls : Nat
  execCount : Nat
  hitlCount : Nat
deriving DecidableEq, Repr

/-- One LangGraph superstep of the compiled graph in `_build_graph`:
execute the current node, merge its update, then follow the node's edge
(`propose` and `hitl_gate` via their conditional routers, `act` via the
unconditional `add_edge("act", "propose")`). -/
def graphStep (cfg : AgentConfig) (env : Env) (r : RunState) : RunState :=
  match r.node with
  | .terminal => r
  | .propose =>
    let ui := proposeNode cfg env r.proposeCount r.plannerCalls r.st
    let s := applyUpdate r.st ui.1
    { r with st := s, node := routeAfterPropose cfg s,
             proposeCount := r.proposeCount + 1,
             plannerCalls := r.plannerCalls + (if ui.2 then 1 else 0) }
  | .hitlGate =>
    let s := applyUpdate r.st (hitlGateNode cfg env r.hitlCount r.st)
    { r with st := s, node := routeAfterHitl s, hitlCount := r.hitlCount + 1 }
  | .act =>
    let s := applyUpdate r.st (actNode cfg env r.execCount r.st)
    { r with st := s, node := .propose,
             execCount := r.execCount + (if r.st.pending_calls.isEmpty then 0 else 1) }

/-- Iterate `n` supersteps. -/
def runN (cfg : AgentConfig) (env : Env) : Nat → RunState → RunState
  | 0, r => r
  | n + 1, r => runN cfg env n (graphStep cfg env r)

/-- The initial channel state built in `run` (agent.py lines 427-438). -/
def initState (task : String) (initial_screenshot : Bytes) : CUAState :=
  { task := task, action_history := [], step_logs := [], pending_calls := [],
    last_screenshot_png := initial_screenshot, step := 0, done := false,
    safety := none, error := none, observation := "", proposed_actions := [] }

/-- A fresh run entering the graph at `propose` (the `START` edge). -/
def initRun (task : String) (initial_screenshot : Bytes) : RunState :=
  { st := initState task initial_screenshot, node := .propose,
    proposeCount := 0, plannerCalls := 0, execCount := 0, hitlCount := 0 }

/-- The gate entry numbered `k` obtains an approval. -/
def hitlApproves (cfg : AgentConfig) (env : Env) (k : Nat) : Prop :=
  if cfg.useCallback then env.hitlCallback k = .ok true
  else env.hitlInterrupt k ≠ "deny"

/-- The gate entry numbered `k` obtains a denial. -/
def hitlDenies (cfg : AgentConfig) (env : Env) (k : Nat) : Prop :=
  if cfg.useCallback then env.hitlCallback k = .ok false
  else env.hitlInterrupt k = "deny"

/-- A sample click call. -/
def callA : Call := { name := "click_at", args := [("x", "100"), ("y", "200")] }

/-- A second, distinct sample call. -/
def callB : Call := { name := "hover_at", args := [("x", "300"), ("y", "400")] }

/-- The constructor-default configuration (step_limit 40, timeout 300,
hitl_mode on, no callback, run logger set). -/
def cfgDefault : AgentConfig := {}

/-- Environment whose planner proposes two calls in round one and one
call afterwards; every action succeeds. -/
def envC1 : Env :=
  { planner := fun k =>
      if k = 0 then .ok { observation := "o1", calls := [callA, callB] }
      else .ok { observation := "o2", calls := [callA] },
    elapsed := fun _ => 0,
    exec := fun _ _ => .ok none [1],
    hitlCallback := fun _ => .ok true,
    hitlInterrupt := fun _ => "approve",
    now := fun _ => 0 }

/-- A planner response with zero calls and a blocking verdict. -/
def respC2 : PlannerResponse :=
  { observation := "",
    calls := [],
    safety := some { action := some "block", reason := some "destructive" } }

/-- Environment whose planner always answers with `respC2`. -/
def envC2 : Env :=
  { planner := fun _ => .ok respC2,
    elapsed := fun _ => 0,
    exec := fun _ _ => .ok none [1],
    hitlCallback := fun _ => .ok true,
    hitlInterrupt := fun _ => "approve",
    now := fun _ => 0 }

/-- A planner response with one call and a blocking verdict. -/
def respC2b : PlannerResponse :=
  { observation := "",
    calls := [callA],
    safety := some { action := some "block", reason := some "rm -rf" } }

/-- Environment whose planner always answers with `respC2b`. -/
def envC2b : Env :=
  { planner := fun _ => .ok respC2b,
    elapsed := fun _ => 0,
    exec := fun _ _ => .ok none [1],
    hitlCallback := fun _ => .ok true,
    hitlInterrupt := fun _ => "approve",
    now := fun _ => 0 }

/-- A run positioned at the act node with two queued calls. -/
def actRunC1 : RunState :=
  { st := { initState "t" [9] with pending_calls := [callA, callB], step := 1 },
    node := Node.act, proposeCount := 1, plannerCalls := 1, execCount := 0,
    hitlCount := 0 }

/-- A confirmation-requiring safety verdict. -/
def confirmVerdict : SafetyDecision :=
  { action := some "require_confirmation", reason := some "risky" }

/-- The default configuration with an injected HITL callback. -/
def cfgCallback : AgentConfig := { useCallback := true }

/-- Planner response proposing two calls under a confirmation verdict. -/
def respC3 : PlannerResponse :=
  { observation := "", calls := [callA, callB], safety := some confirmVerdict }

/-- Environment: round one proposes `respC3`, later rounds propose
nothing; the HITL callback approves; actions succeed. -/
def envC3 : Env :=
  { planner := fun k =>
      if k = 0 then .ok respC3 else .ok { observation := "", calls := [] },
    elapsed := fun _ => 0,
    exec := fun _ _ => .ok none [1],
    hitlCallback := fun _ => .ok true,
    hitlInterrupt := fun _ => "approve",
    now := fun _ => 0 }

/-- Environment whose HITL decision is a denial on both mechanisms. -/
def envDeny : Env :=
  { planner := fun _ => .ok respC3,
    elapsed := fun _ => 0,
    exec := fun _ _ => .ok none [1],
    hitlCallback := fun _ => .ok false,
    hitlInterrupt := fun _ => "deny",
    now := fun _ => 0 }

/-- A run suspended at the HITL gate with two queued calls under a
confirmation verdict. -/
def gateRun : RunState :=
  { st := { initState "t" [9] with
              pending_calls := [callA, callB], step := 1,
              safety := some confirmVerdict },
    node := Node.hitlGate, proposeCount := 1, plannerCalls := 1,
    execCount := 0, hitlCount := 0 }

/-- Environment whose first round proposes one call whose execution
raises "boom" (with a successful best-effort capture), and whose second
round proposes nothing. -/
def envC5 : Env :=
  { planner := fun k =>
      if k = 0 then .ok { observation := "", calls := [callA] }
      else .ok { observation := "", calls := [] },
    elapsed := fun _ => 0,
    exec := fun _ _ => .exc "boom" (some [1]),
    hitlCallback := fun _ => .ok true,
    hitlInterrupt := fun _ => "approve",
    now := fun _ => 0 }

/-- Environment whose planner immediately proposes nothing. -/
def envC5w : Env :=
  { planner := fun _ => .ok { observation := "done", calls := [] },
    elapsed := fun _ => 0,
    exec := fun _ _ => .ok none [1],
    hitlCallback := fun _ => .ok true,
    hitlInterrupt := fun _ => "approve",
    now := fun _ => 0 }

/-- The configuration of spec scenario B: `step_limit = 3`. -/
def cfg4 : AgentConfig := { step_limit := 3 }

/-- The planner response of scenario B: one proposed call. -/
def respC4 : PlannerResponse := { observation := "", calls := [callA] }

/-- Environment whose planner always proposes one successful call. -/
def env4 : Env :=
  { planner := fun _ => .ok respC4,
    elapsed := fun _ => 0,
    exec := fun _ _ => .ok none [1],
    hitlCallback := fun _ => .ok true,
    hitlInterrupt := fun _ => "approve",
    now := fun _ => 0 }

/-- A concrete connected controller state used by the C10 witness. -/
def sampleVncState : VncState :=
  { connected := true, screenSize := some (1440, 900), events := [] }

/-- A concrete capture environment used by the C10 witness. -/
def sampleVncEnv : VncEnv := { capture := some ([7], 1440, 900) }

/-! ## Helper lemmas -/

theorem containsSub_of_isPrefixOf {needle hay : List Char}
    (h : needle.isPrefixOf hay = true) : containsSub needle hay = true := by
  cases hay with
  | nil => simpa [containsSub] using h
  | cons c rest => simp [containsSub, h]

theorem containsSub_append_right (needle pre : List Char) :
    containsSub needle (pre ++ needle) = true := by
  induction pre with
  | nil => exact containsSub_of_isPrefixOf (by simp [List.isPrefixOf_iff_prefix])
  | cons c rest ih => simp [containsSub, ih]

theorem containsSub_append_left (needle t : List Char) :
    containsSub needle (needle ++ t) = true :=
  containsSub_of_isPrefixOf (by simp [List.isPrefixOf_iff_prefix])

theorem strContains_append_right (a b : String) : strContains (a ++ b) b = true := by
  unfold strContains
  rw [String.data_append]
  exact containsSub_append_right _ _

theorem strContains_exception (msg : String) :
    strContains ("Exception: " ++ msg) "Exception" = true := by
  unfold strContains
  rw [String.data_append]
  have h : String.data "Exception: " = String.data "Exception" ++ String.data ": " := rfl
  rw [h, List.append_assoc]
  exact containsSub_append_left _ _

theorem graphStep_terminal (cfg : AgentConfig) (env : Env) {r : RunState}
    (h : r.node = Node.terminal) : graphStep cfg env r = r := by
  simp [graphStep, h]

theorem runN_terminal (cfg : AgentConfig) (env : Env) {r : RunState}
    (h : r.node = Node.terminal) : ∀ n, runN cfg env n r = r := by
  intro n
  induction n with
  | zero => rfl
  | succ n ih => rw [runN, graphStep_terminal cfg env h, ih]

theorem runN_add (cfg : AgentConfig) (env : Env) (m n : Nat) (r : RunState) :
    runN cfg env (m + n) r = runN cfg env n (runN cfg env m r) := by
  induction m generalizing r with
  | zero => simp [runN, Nat.zero_add]
  | succ m ih =>
    have h : m + 1 + n = (m + n) + 1 := by omega
    rw [h]
    calc runN cfg env ((m + n) + 1) r
        = runN cfg env (m + n) (graphStep cfg env r) := rfl
      _ = runN cfg env n (runN cfg env m (graphStep cfg env r)) := ih _
      _ = runN cfg env n (runN cfg env (m + 1) r) := rfl

theorem pyRound1000_le_succ (n : Nat) : pyRound1000 n ≤ pyRound1000 (n + 1) := by
  unfold pyRound1000
  split_ifs <;> omega

theorem pyRound1000_mono : Monotone pyRound1000 :=
  monotone_nat_of_le_succ pyRound1000_le_succ

/-- A propose superstep on which every guard passes and the planner
returns a non-empty, non-blocked call list: the queue, step counter,
safety verdict and observation are stored and the router runs on the
merged state. -/
theorem propose_advance (cfg : AgentConfig) (env : Env) (r : RunState)
    (resp : PlannerResponse)
    (hnode : r.node = Node.propose)
    (hstep : r.st.step < cfg.step_limit)
    (ht : env.elapsed r.proposeCount < cfg.seconds_timeout)
    (hshot : r.st.last_screenshot_png ≠ [])
    (hp : env.planner r.plannerCalls = .ok resp)
    (hne : resp.calls ≠ [])
    (hnb : should_block resp.safety = false) :
    graphStep cfg env r =
      ⟨{ r.st with
           pending_calls := resp.calls, safety := resp.safety,
           step := r.st.step + 1, observation := resp.observation,
           proposed_actions := resp.calls },
       (if r.st.done then Node.terminal
        else if cfg.hitl_mode && requires_confirmation resp.safety then Node.hitlGate
        else Node.act),
       r.proposeCount + 1, r.plannerCalls + 1, r.execCount, r.hitlCount⟩ := by
  obtain ⟨st, node, pc, plc, ec, hc⟩ := r
  simp only at hnode hstep ht hshot hp
  subst hnode
  have hpn : proposeNode cfg env pc plc st =
      ({ pending_calls := some resp.calls, safety := some resp.safety,
         step := some (st.step + 1), observation := some resp.observation,
         proposed_actions := some resp.calls }, true) := by
    unfold proposeNode
    rw [if_neg (by omega), if_neg (by omega), if_neg hshot]
    simp only [hp]
    rw [if_neg hne, if_neg (by simp [hnb])]
  simp [graphStep, hpn, applyUpdate, routeAfterPropose]

/-- A propose superstep on which every guard passes and the planner
returns zero calls: the success-path termination. -/
theorem propose_empty (cfg : AgentConfig) (env : Env) (r : RunState)
    (resp : PlannerResponse)
    (hnode : r.node = Node.propose)
    (hstep : r.st.step < cfg.step_limit)
    (ht : env.elapsed r.proposeCount < cfg.seconds_timeout)
    (hshot : r.st.last_screenshot_png ≠ [])
    (hp : env.planner r.plannerCalls = .ok resp)
    (hempty : resp.calls = []) :
    graphStep cfg env r =
      ⟨{ r.st with
           done := true, pending_calls := [], safety := resp.safety,
           observation := resp.observation },
       Node.terminal,
       r.proposeCount + 1, r.plannerCalls + 1, r.execCount, r.hitlCount⟩ := by
  obtain ⟨st, node, pc, plc, ec, hc⟩ := r
  simp only at hnode hstep ht hshot hp
  subst hnode
  have hpn : proposeNode cfg env pc plc st =
      ({ done := some true, pending_calls := some [],
         safety := some resp.safety, observation := some resp.observation }, true) := by
    unfold proposeNode
    rw [if_neg (by omega), if_neg (by omega), if_neg hshot]
    simp only [hp]
    rw [if_pos hempty]
  simp [graphStep, hpn, applyUpdate, routeAfterPropose]

/-- A propose superstep on which every guard passes and the planner
returns a non-empty call list with a blocking verdict. -/
theorem propose_block (cfg : AgentConfig) (env : Env) (r : RunState)
    (resp : PlannerResponse)
    (hnode : r.node = Node.propose)
    (hstep : r.st.step < cfg.step_limit)
    (ht : env.elapsed r.proposeCount < cfg.seconds_timeout)
    (hshot : r.st.last_screenshot_png ≠ [])
    (hp : env.planner r.plannerCalls = .ok resp)
    (hne : resp.calls ≠ [])
    (hb : should_block resp.safety = true) :
    graphStep cfg env r =
      ⟨{ r.st with
           done := true,
           error := some ("Blocked by safety: " ++ blockReason resp.safety),
           safety := resp.safety, observation := resp.observation },
       Node.terminal,
       r.proposeCount + 1, r.plannerCalls + 1, r.execCount, r.hitlCount⟩ := by
  obtain ⟨st, node, pc, plc, ec, hc⟩ := r
  simp only at hnode hstep ht hshot hp
  subst hnode
  have hpn : proposeNode cfg env pc plc st =
      ({ done := some true,
         error := some (some ("Blocked by safety: " ++ blockReason resp.safety)),
         safety := some resp.safety, observation := some resp.observation }, true) := by
    unfold proposeNode
    rw [if_neg (by omega), if_neg (by omega), if_neg hshot]
    simp only [hp]
    rw [if_neg hne, if_pos hb]
  simp [graphStep, hpn, applyUpdate, routeAfterPropose]

/-- A propose superstep entered once the step budget is exhausted:
terminates with the step-limit message without invoking the planner. -/
theorem propose_steplimit (cfg : AgentConfig) (env : Env) (r : RunState)
    (hnode : r.node = Node.propose)
    (hstep : cfg.step_limit ≤ r.st.step) :
    graphStep cfg env r =
      ⟨{ r.st with
           done := true,
           error := some ("Step limit reached: " ++ toString cfg.step_limit) },
       Node.terminal,
       r.proposeCount + 1, r.plannerCalls, r.execCount, r.hitlCount⟩ := by
  obtain ⟨st, node, pc, plc, ec, hc⟩ := r
  simp only at hnode hstep
  subst hnode
  have hpn : proposeNode cfg env pc plc st =
      ({ done := some true,
         error := some (some ("Step limit reached: " ++ toString cfg.step_limit)) },
       false) := by
    unfold proposeNode
    rw [if_pos hstep]
  simp [graphStep, hpn, applyUpdate, routeAfterPropose]

/-- An act superstep with a non-empty queue: exactly the head is popped
and executed, a step log for it is appended, and the graph follows the
unconditional edge back to `propose`. -/
theorem act_fields (cfg : AgentConfig) (env : Env) (r : RunState)
    (c : Call) (rest : List Call)
    (hnode : r.node = Node.act)
    (hpc : r.st.pending_calls = c :: rest) :
    (graphStep cfg env r).node = Node.propose
    ∧ (graphStep cfg env r).st.pending_calls = rest
    ∧ (graphStep cfg env r).st.done = r.st.done
    ∧ (graphStep cfg env r).st.step = r.st.step
    ∧ (graphStep cfg env r).st.last_screenshot_png = execScreenshot (env.exec r.execCount c)
    ∧ (graphStep cfg env r).proposeCount = r.proposeCount
    ∧ (graphStep cfg env r).plannerCalls = r.plannerCalls
    ∧ (graphStep cfg env r).execCount = r.execCount + 1
    ∧ (graphStep cfg env r).hitlCount = r.hitlCount
    ∧ ∃ lg : StepLog, (graphStep cfg env r).st.step_logs = r.st.step_logs ++ [lg]
        ∧ lg.executed_action = c := by
  obtain ⟨st, node, pc, plc, ec, hc⟩ := r
  simp only at hnode hpc
  subst hnode
  cases hex : env.exec ec c with
  | ok err png =>
    refine ⟨?_, ?_, ?_, ?_, ?_, ?_, ?_, ?_, ?_, ?_⟩ <;>
      simp only [graphStep, actNode, hpc, hex, applyUpdate, Option.getD_some,
        Option.getD_none, execScreenshot, List.isEmpty_cons, Bool.false_eq_true,
        if_false]
    exact ⟨_, rfl, rfl⟩
  | exc msg capture =>
    refine ⟨?_, ?_, ?_, ?_, ?_, ?_, ?_, ?_, ?_, ?_⟩ <;>
      simp only [graphStep, actNode, hpc, hex, applyUpdate, Option.getD_some,
        Option.getD_none, execScreenshot, List.isEmpty_cons, Bool.false_eq_true,
        if_false]
    exact ⟨_, rfl, rfl⟩

/-! ## Concrete sample data for counterexamples and witnesses -/

/-! ## Claim theorems -/

/-- Claim C1 counterexample: with round one proposing the two calls
`callA, callB`, after the act superstep executes `callA` the queue is the
non-empty `[callB]`, yet the machine is at `propose` (not `act`), and the
next superstep invokes the planner again (planner call count 2 with only
one executed action), overwriting the queue with the new round's
proposal `[callA]` — so the next queued call is not executed before a new
planner invocation, contradicting the claim. -/
theorem C1_counterexample :
    (runN cfgDefault envC1 1 (initRun "t" [9])).st.pending_calls = [callA, callB]
    ∧ (runN cfgDefault envC1 2 (initRun "t" [9])).st.pending_calls = [callB]
    ∧ (runN cfgDefault envC1 2 (initRun "t" [9])).node = Node.propose
    ∧ (runN cfgDefault envC1 2 (initRun "t" [9])).node ≠ Node.act
    ∧ (runN cfgDefault envC1 3 (initRun "t" [9])).plannerCalls = 2
    ∧ (runN cfgDefault envC1 3 (initRun "t" [9])).execCount = 1
    ∧ (runN cfgDefault envC1 3 (initRun "t" [9])).st.pending_calls = [callA] := by
  decide

/-- Claim C1 (amended): in the Acting state the loop pops exactly the
head of pendingCalls and executes it (a step log for that call is
appended and the executor-invocation count rises by one), leaving the
rest queued; but the loop then always transitions back to Proposing via
the unconditional act → propose edge, whether or not pendingCalls is now
empty. -/
theorem C1_amended (cfg : AgentConfig) (env : Env) (r : RunState)
    (c : Call) (rest : List Call)
    (hnode : r.node = Node.act)
    (hpc : r.st.pending_calls = c :: rest) :
    (graphStep cfg env r).node = Node.propose
    ∧ (graphStep cfg env r).st.pending_calls = rest
    ∧ (graphStep cfg env r).execCount = r.execCount + 1
    ∧ ∃ lg : StepLog, (graphStep cfg env r).st.step_logs = r.st.step_logs ++ [lg]
        ∧ lg.executed_action = c := by
  obtain ⟨h1, h2, _, _, _, _, _, h8, _, h10⟩ := act_fields cfg env r c rest hnode hpc
  exact ⟨h1, h2, h8, h10⟩

/-- Witness for C1 (amended) at a concrete two-call queue. -/
theorem C1_witness :
    actRunC1.node = Node.act
    ∧ actRunC1.st.pending_calls = [callA, callB]
    ∧ (graphStep cfgDefault envC1 actRunC1).node = Node.propose
    ∧ (graphStep cfgDefault envC1 actRunC1).st.pending_calls = [callB]
    ∧ (graphStep cfgDefault envC1 actRunC1).execCount = 1 := by
  have h := C1_amended cfgDefault envC1 actRunC1 callA [callB] rfl rfl
  exact ⟨rfl, rfl, h.1, h.2.1, h.2.2.1⟩

/-- Claim C2 counterexample: a planner round returning a blocking verdict
together with the empty call list terminates the run with `done = true`
but with no error at all (the zero-calls branch wins), refuting the
claim's "non-empty error string" for that case. -/
theorem C2_counterexample :
    should_block respC2.safety = true
    ∧ (runN cfgDefault envC2 1 (initRun "t" [9])).st.done = true
    ∧ (runN cfgDefault envC2 1 (initRun "t" [9])).st.error = none
    ∧ (runN cfgDefault envC2 1 (initRun "t" [9])).node = Node.terminal := by
  decide

/-- Claim C2 (amended): when the planner returns a blocking verdict
together with a non-empty call list (and the entry guards pass), the run
terminates with `done = true` and a non-empty error containing the
verdict's reason, the executor is never invoked again, and the step logs
are unchanged (zero entries on round one). -/
theorem C2_amended (cfg : AgentConfig) (env : Env) (r : RunState)
    (resp : PlannerResponse)
    (hnode : r.node = Node.propose)
    (hstep : r.st.step < cfg.step_limit)
    (ht : env.elapsed r.proposeCount < cfg.seconds_timeout)
    (hshot : r.st.last_screenshot_png ≠ [])
    (hp : env.planner r.plannerCalls = .ok resp)
    (hne : resp.calls ≠ [])
    (hb : should_block resp.safety = true) :
    (graphStep cfg env r).st.done = true
    ∧ (graphStep cfg env r).st.error =
        some ("Blocked by safety: " ++ blockReason resp.safety)
    ∧ strContains ("Blocked by safety: " ++ blockReason resp.safety)
        (blockReason resp.safety) = true
    ∧ ("Blocked by safety: " ++ blockReason resp.safety) ≠ ""
    ∧ (graphStep cfg env r).node = Node.terminal
    ∧ (∀ m, (runN cfg env m (graphStep cfg env r)).execCount = r.execCount)
    ∧ (graphStep cfg env r).st.step_logs = r.st.step_logs := by
  have hg := propose_block cfg env r resp hnode hstep ht hshot hp hne hb
  rw [hg]
  refine ⟨rfl, rfl, strContains_append_right _ _, ?_, rfl, ?_, rfl⟩
  · intro hcontra
    have hlen := congrArg String.length hcontra
    rw [String.length_append] at hlen
    have h19 : ("Blocked by safety: " : String).length = 19 := rfl
    have h0 : ("" : String).length = 0 := rfl
    omega
  · intro m
    rw [runN_terminal cfg env rfl m]

/-- Witness for C2 (amended) on a fresh run whose first round blocks. -/
theorem C2_witness :
    (initRun "t" [9]).node = Node.propose
    ∧ (initRun "t" [9]).st.step_logs = []
    ∧ (graphStep cfgDefault envC2b (initRun "t" [9])).st.done = true
    ∧ (graphStep cfgDefault envC2b (initRun "t" [9])).st.error =
        some ("Blocked by safety: " ++ blockReason respC2b.safety)
    ∧ (graphStep cfgDefault envC2b (initRun "t" [9])).st.step_logs = [] := by
  have h := C2_amended cfgDefault envC2b (initRun "t" [9]) respC2b rfl (by decide)
    (by decide) (by decide) rfl (by decide) (by decide)
  exact ⟨rfl, rfl, h.1, h.2.1, h.2.2.2.2.2.2⟩

/-- Claim C3 counterexample: with HITL enabled, a confirmation verdict on
the two originally queued calls `[callA, callB]` and an approval, the run
executes only `callA` before terminating (round two proposes nothing), so
approval does not lead to execution of exactly the originally queued
pendingCalls. -/
theorem C3_counterexample :
    requires_confirmation (some confirmVerdict) = true
    ∧ (runN cfgCallback envC3 1 (initRun "t" [9])).node = Node.hitlGate
    ∧ (runN cfgCallback envC3 1 (initRun "t" [9])).st.pending_calls = [callA, callB]
    ∧ (runN cfgCallback envC3 4 (initRun "t" [9])).st.done = true
    ∧ (runN cfgCallback envC3 4 (initRun "t" [9])).node = Node.terminal
    ∧ (runN cfgCallback envC3 4 (initRun "t" [9])).st.step_logs.map
        (fun lg => lg.executed_action) = [callA]
    ∧ [callA] ≠ [callA, callB] := by
  decide

/-- Claim C3 (amended): with HITL enabled and a confirmation-requiring
verdict the router sends the run to the gate, not to the executor; at the
gate a denial terminates the run with `done = true` and the error "User
denied action" (mentioning denial) without invoking the executor and
without touching the queue; an approval changes no state at all (gate
frame condition), routes to Acting, and the following act superstep
executes the head of the originally queued calls (only the head: the
loop then replans per the act → propose edge). -/
theorem C3_amended :
    (∀ (cfg : AgentConfig) (s : CUAState), cfg.hitl_mode = true → s.done = false →
      requires_confirmation s.safety = true → routeAfterPropose cfg s = Node.hitlGate)
    ∧ (∀ (cfg : AgentConfig) (env : Env) (r : RunState),
        r.node = Node.hitlGate → hitlDenies cfg env r.hitlCount →
        (graphStep cfg env r).st.done = true
        ∧ (graphStep cfg env r).st.error = some "User denied action"
        ∧ strContains "User denied action" "denied" = true
        ∧ (graphStep cfg env r).node = Node.terminal
        ∧ (graphStep cfg env r).execCount = r.execCount
        ∧ (graphStep cfg env r).st.pending_calls = r.st.pending_calls)
    ∧ (∀ (cfg : AgentConfig) (env : Env) (r : RunState) (c : Call) (rest : List Call),
        r.node = Node.hitlGate → r.st.done = false →
        hitlApproves cfg env r.hitlCount → r.st.pending_calls = c :: rest →
        (graphStep cfg env r).st = r.st
        ∧ (graphStep cfg env r).node = Node.act
        ∧ (graphStep cfg env r).execCount = r.execCount
        ∧ ∃ lg : StepLog,
            (graphStep cfg env (graphStep cfg env r)).st.step_logs =
              r.st.step_logs ++ [lg]
            ∧ lg.executed_action = c) := by
  refine ⟨?_, ?_, ?_⟩
  · intro cfg s hh hdone hrc
    unfold routeAfterPropose
    rw [if_neg (by simp [hdone]), if_pos (by simp [hh, hrc])]
  · intro cfg env r hnode hden
    obtain ⟨st, node, pc, plc, ec, hc⟩ := r
    simp only at hnode hden ⊢
    subst hnode
    unfold hitlDenies at hden
    cases hcb : cfg.useCallback with
    | true =>
      rw [hcb] at hden
      simp only [if_true] at hden
      have hg : graphStep cfg env ⟨st, Node.hitlGate, pc, plc, ec, hc⟩ =
          ⟨{ st with done := true, error := some "User denied action" },
           Node.terminal, pc, plc, ec, hc + 1⟩ := by
        simp [graphStep, hitlGateNode, hcb, hden, applyUpdate, routeAfterHitl]
      rw [hg]
      exact ⟨rfl, rfl, by decide, rfl, rfl, rfl⟩
    | false =>
      rw [hcb] at hden
      simp only [Bool.false_eq_true, if_false] at hden
      have hg : graphStep cfg env ⟨st, Node.hitlGate, pc, plc, ec, hc⟩ =
          ⟨{ st with done := true, error := some "User denied action" },
           Node.terminal, pc, plc, ec, hc + 1⟩ := by
        simp [graphStep, hitlGateNode, hcb, hden, applyUpdate, routeAfterHitl]
      rw [hg]
      exact ⟨rfl, rfl, by decide, rfl, rfl, rfl⟩
  · intro cfg env r c rest hnode hdone happ hpc
    obtain ⟨st, node, pc, plc, ec, hc⟩ := r
    simp only at hnode hdone happ hpc ⊢
    subst hnode
    unfold hitlApproves at happ
    have hg : graphStep cfg env ⟨st, Node.hitlGate, pc, plc, ec, hc⟩ =
        ⟨st, Node.act, pc, plc, ec, hc + 1⟩ := by
      cases hcb : cfg.useCallback with
      | true =>
        rw [hcb] at happ
        simp only [if_true] at happ
        simp [graphStep, hitlGateNode, hcb, happ, applyUpdate, routeAfterHitl, hdone]
        rw [← hdone]
      | false =>
        rw [hcb] at happ
        simp only [Bool.false_eq_true, if_false] at happ
        simp [graphStep, hitlGateNode, hcb, happ, applyUpdate, routeAfterHitl, hdone]
        rw [← hdone]
    rw [hg]
    refine ⟨rfl, rfl, rfl, ?_⟩
    obtain ⟨_, _, _, _, _, _, _, _, _, h10⟩ :=
      act_fields cfg env ⟨st, Node.act, pc, plc, ec, hc + 1⟩ c rest rfl hpc
    exact h10

/-- Witness for C3 (amended): concrete routing, denial and approval. -/
theorem C3_witness :
    routeAfterPropose cfgCallback gateRun.st = Node.hitlGate
    ∧ (graphStep cfgCallback envDeny gateRun).st.done = true
    ∧ (graphStep cfgCallback envDeny gateRun).st.error = some "User denied action"
    ∧ (graphStep cfgCallback envDeny gateRun).st.pending_calls = [callA, callB]
    ∧ (graphStep cfgCallback envC3 gateRun).st = gateRun.st
    ∧ (graphStep cfgCallback envC3 gateRun).node = Node.act := by
  have h1 := C3_amended.1 cfgCallback gateRun.st rfl rfl (by decide)
  have h2 := C3_amended.2.1 cfgCallback envDeny gateRun rfl rfl
  have h3 := C3_amended.2.2 cfgCallback envC3 gateRun callA [callB] rfl rfl rfl rfl
  exact ⟨h1, h2.1, h2.2.1, h2.2.2.2.2.2, h3.1, h3.2.1⟩

/-- Claim C5 counterexample: a round-one action raises and the surviving
exception writes `error = "boom"` into the state (agent.py line 308);
round two's planner returns zero proposed calls, and the run terminates
with `done = true` but with that stale error still set — so a
zero-proposal round does not guarantee a run ending with no error. -/
theorem C5_counterexample :
    envC5.planner 1 = PlannerOutcome.ok { observation := "", calls := [] }
    ∧ (runN cfgDefault envC5 3 (initRun "t" [9])).node = Node.terminal
    ∧ (runN cfgDefault envC5 3 (initRun "t" [9])).st.done = true
    ∧ (runN cfgDefault envC5 3 (initRun "t" [9])).st.error = some "boom"
    ∧ (runN cfgDefault envC5 3 (initRun "t" [9])).st.error ≠ none := by
  decide

/-- Claim C5 (amended): when a proposal round (whose entry guards pass)
returns zero proposed calls, the run terminates: the propose node's
update sets `done = true` and carries no error field, the router goes to
the terminal state, and the error field is left exactly as it was — so it
is none whenever no earlier surviving action exception had set it. -/
theorem C5_amended (cfg : AgentConfig) (env : Env) (r : RunState)
    (resp : PlannerResponse)
    (hnode : r.node = Node.propose)
    (hstep : r.st.step < cfg.step_limit)
    (ht : env.elapsed r.proposeCount < cfg.seconds_timeout)
    (hshot : r.st.last_screenshot_png ≠ [])
    (hp : env.planner r.plannerCalls = .ok resp)
    (hempty : resp.calls = []) :
    (proposeNode cfg env r.proposeCount r.plannerCalls r.st).1.done = some true
    ∧ (proposeNode cfg env r.proposeCount r.plannerCalls r.st).1.error = none
    ∧ (graphStep cfg env r).st.done = true
    ∧ (graphStep cfg env r).st.error = r.st.error
    ∧ (graphStep cfg env r).node = Node.terminal
    ∧ (r.st.error = none → (graphStep cfg env r).st.error = none) := by
  have hpn : proposeNode cfg env r.proposeCount r.plannerCalls r.st =
      ({ done := some true, pending_calls := some [],
         safety := some resp.safety, observation := some resp.observation }, true) := by
    unfold proposeNode
    rw [if_neg (by omega), if_neg (by omega), if_neg hshot]
    simp only [hp]
    rw [if_pos hempty]
  have hg := propose_empty cfg env r resp hnode hstep ht hshot hp hempty
  rw [hpn, hg]
  exact ⟨rfl, rfl, rfl, rfl, rfl, fun h => h⟩

/-- Witness for C5 (amended) on a fresh run with a clean error field. -/
theorem C5_witness :
    (initRun "t" [9]).node = Node.propose
    ∧ (initRun "t" [9]).st.error = none
    ∧ (graphStep cfgDefault envC5w (initRun "t" [9])).st.done = true
    ∧ (graphStep cfgDefault envC5w (initRun "t" [9])).st.error = none
    ∧ (graphStep cfgDefault envC5w (initRun "t" [9])).node = Node.terminal := by
  have h := C5_amended cfgDefault envC5w (initRun "t" [9])
    { observation := "done", calls := [] } rfl (by decide) (by decide) (by decide)
    rfl rfl
  exact ⟨rfl, rfl, h.2.2.1, h.2.2.2.2.2 rfl, h.2.2.2.2.1⟩

/-- Claim C6: when the executed action raises, the run does not
terminate: `done` stays false and the graph proceeds to the next proposal
round; a StepLog whose result text is `"Exception: {msg}"` (containing
"Exception") is appended, the action history gains
`"Executed {name}({args}) - Exception: {msg}"`, and the best-effort
capture (empty bytes when it fails) becomes the stored frame. -/
theorem C6_theorem (cfg : AgentConfig) (env : Env) (r : RunState) (c : Call)
    (rest : List Call) (msg : String) (capture : Option Bytes)
    (hnode : r.node = Node.act)
    (hpc : r.st.pending_calls = c :: rest)
    (hdone : r.st.done = false)
    (hex : env.exec r.execCount c = ExecOutcome.exc msg capture) :
    (graphStep cfg env r).st.done = false
    ∧ (graphStep cfg env r).node = Node.propose
    ∧ (graphStep cfg env r).st.step_logs = r.st.step_logs ++
        [{ step_number := r.st.step, observation := r.st.observation,
           proposed_actions := r.st.proposed_actions, executed_action := c,
           result := "Exception: " ++ msg,
           screenshot_path :=
             if cfg.hasRunLogger && !(capture.getD []).isEmpty then
               some (logScreenshotName r.st.step ("step_" ++ pad3 r.st.step ++ "_error"))
             else none,
           timestamp := env.now r.execCount }]
    ∧ strContains ("Exception: " ++ msg) "Exception" = true
    ∧ (graphStep cfg env r).st.action_history = r.st.action_history ++
        ["Executed " ++ c.name ++ "(" ++ fmtArgs c.args ++ ")" ++ " - Exception: " ++ msg]
    ∧ (graphStep cfg env r).st.last_screenshot_png = capture.getD [] := by
  obtain ⟨st, node, pc, plc, ec, hc⟩ := r
  simp only at hnode hpc hdone hex ⊢
  subst hnode
  refine ⟨?_, ?_, ?_, strContains_exception msg, ?_, ?_⟩ <;>
    simp only [graphStep, actNode, hpc, hex, applyUpdate, Option.getD_some,
      Option.getD_none]
  exact hdone

/-- Witness for C6: a concrete act step whose executor raises "boom" with
a successful best-effort capture. -/
theorem C6_witness :
    actRunC1.node = Node.act
    ∧ envC5.exec 0 callA = ExecOutcome.exc "boom" (some [1])
    ∧ (graphStep cfgDefault envC5 actRunC1).st.done = false
    ∧ (graphStep cfgDefault envC5 actRunC1).node = Node.propose
    ∧ (graphStep cfgDefault envC5 actRunC1).st.last_screenshot_png = [1]
    ∧ strContains ("Exception: " ++ "boom") "Exception" = true := by
  have h := C6_theorem cfgDefault envC5 actRunC1 callA [callB] "boom" (some [1])
    rfl rfl rfl rfl
  exact ⟨rfl, rfl, h.1, h.2.1, h.2.2.2.2.2, h.2.2.2.1⟩

/-- Claim C7 exhibit of the code bug: after a surviving act-node
exception the reachable state has a non-null error ("boom") while
`done = false` and the machine is at `propose`, and the run then
continues (the planner is invoked a second time) — contradicting the
claim (and types.py's own "terminal error message" documentation), which
admits a non-null error only in terminal `done = true` states. -/
theorem C7_bug_exhibit :
    (runN cfgDefault envC5 2 (initRun "t" [9])).st.error = some "boom"
    ∧ (runN cfgDefault envC5 2 (initRun "t" [9])).st.done = false
    ∧ (runN cfgDefault envC5 2 (initRun "t" [9])).node = Node.propose
    ∧ (runN cfgDefault envC5 2 (initRun "t" [9])).node ≠ Node.terminal
    ∧ (runN cfgDefault envC5 3 (initRun "t" [9])).plannerCalls = 2 := by
  decide

/-- One full proposal round (propose superstep then act superstep) under
an environment whose planner always returns a non-empty, non-blocking,
non-confirming proposal, whose clock stays under the timeout, and whose
executor outcomes always carry a non-empty frame: the machine returns to
`propose` with the step counter and planner-call counter up by one. -/
theorem c4_round (cfg : AgentConfig) (env : Env)
    (hplan : ∀ k, ∃ resp, env.planner k = PlannerOutcome.ok resp ∧ resp.calls ≠ []
      ∧ should_block resp.safety = false ∧ requires_confirmation resp.safety = false)
    (htime : ∀ k, env.elapsed k < cfg.seconds_timeout)
    (hshot : ∀ k c, execScreenshot (env.exec k c) ≠ [])
    (r : RunState)
    (hnode : r.node = Node.propose)
    (hdone : r.st.done = false)
    (hstep : r.st.step < cfg.step_limit)
    (hpng : r.st.last_screenshot_png ≠ []) :
    (runN cfg env 2 r).node = Node.propose
    ∧ (runN cfg env 2 r).st.done = false
    ∧ (runN cfg env 2 r).st.step = r.st.step + 1
    ∧ (runN cfg env 2 r).st.last_screenshot_png ≠ []
    ∧ (runN cfg env 2 r).proposeCount = r.proposeCount + 1
    ∧ (runN cfg env 2 r).plannerCalls = r.plannerCalls + 1 := by
  obtain ⟨resp, hp, hne, hnb, hnc⟩ := hplan r.plannerCalls
  obtain ⟨c, rest, hcalls⟩ : ∃ c rest, resp.calls = c :: rest := by
    cases hcl : resp.calls with
    | nil => exact absurd hcl hne
    | cons a b => exact ⟨a, b, rfl⟩
  have h1 := propose_advance cfg env r resp hnode hstep (htime _) hpng hp hne hnb
  have hroute : (if r.st.done then Node.terminal
      else if cfg.hitl_mode && requires_confirmation resp.safety then Node.hitlGate
      else Node.act) = Node.act := by
    rw [hdone]
    simp [hnc]
  rw [hroute] at h1
  have e2 : runN cfg env 2 r = graphStep cfg env (graphStep cfg env r) := rfl
  rw [e2, h1]
  cases hex : env.exec r.execCount c with
  | ok err png =>
    have hs := hshot r.execCount c
    rw [hex] at hs
    simp only [execScreenshot] at hs
    refine ⟨?_, ?_, ?_, ?_, ?_, ?_⟩
    · simp only [graphStep, actNode, hcalls, hex]
    · simp only [graphStep, actNode, hcalls, hex, applyUpdate, Option.getD_none]
      exact hdone
    · simp only [graphStep, actNode, hcalls, hex, applyUpdate, Option.getD_none]
    · simp only [graphStep, actNode, hcalls, hex, applyUpdate, Option.getD_some]
      exact hs
    · simp only [graphStep, actNode, hcalls, hex]
    · simp only [graphStep, actNode, hcalls, hex]
  | exc msg capture =>
    have hs := hshot r.execCount c
    rw [hex] at hs
    simp only [execScreenshot] at hs
    refine ⟨?_, ?_, ?_, ?_, ?_, ?_⟩
    · simp only [graphStep, actNode, hcalls, hex]
    · simp only [graphStep, actNode, hcalls, hex, applyUpdate, Option.getD_none]
      exact hdone
    · simp only [graphStep, actNode, hcalls, hex, applyUpdate, Option.getD_none]
    · simp only [graphStep, actNode, hcalls, hex, applyUpdate, Option.getD_some]
      exact hs
    · simp only [graphStep, actNode, hcalls, hex]
    · simp only [graphStep, actNode, hcalls, hex]

/-- Claim C4 (amended): with `stepLimit = 3` and a planner that always
returns a non-empty call list with no blocking and no
confirmation-requiring verdict (clock under the timeout, frames always
non-empty), the run terminates after seven supersteps with `done = true`,
`step = 3`, and error `"Step limit reached: 3"`; the guard fires at the
top of the fourth proposal round before the planner is consulted, so the
planner is invoked exactly 3 times, and never again afterwards. -/
theorem C4_amended (cfg : AgentConfig) (env : Env) (task : String) (png0 : Bytes)
    (h3 : cfg.step_limit = 3)
    (hplan : ∀ k, ∃ resp, env.planner k = PlannerOutcome.ok resp ∧ resp.calls ≠ []
      ∧ should_block resp.safety = false ∧ requires_confirmation resp.safety = false)
    (htime : ∀ k, env.elapsed k < cfg.seconds_timeout)
    (hshot : ∀ k c, execScreenshot (env.exec k c) ≠ [])
    (hpng : png0 ≠ []) :
    (runN cfg env 7 (initRun task png0)).st.done = true
    ∧ (runN cfg env 7 (initRun task png0)).st.step = 3
    ∧ (runN cfg env 7 (initRun task png0)).st.error = some "Step limit reached: 3"
    ∧ (runN cfg env 7 (initRun task png0)).node = Node.terminal
    ∧ (runN cfg env 7 (initRun task png0)).plannerCalls = 3
    ∧ ∀ m, (runN cfg env m (runN cfg env 7 (initRun task png0))).plannerCalls = 3 := by
  have hstep0 : (initRun task png0).st.step = 0 := rfl
  have hr1 := c4_round cfg env hplan htime hshot (initRun task png0) rfl rfl
    (by rw [hstep0, h3]; omega) hpng
  have hr2 := c4_round cfg env hplan htime hshot (runN cfg env 2 (initRun task png0))
    hr1.1 hr1.2.1 (by rw [hr1.2.2.1, hstep0, h3]; omega) hr1.2.2.2.1
  have hr3 := c4_round cfg env hplan htime hshot
    (runN cfg env 4 (initRun task png0))
    (by rw [show (4 : Nat) = 2 + 2 from rfl, runN_add]; exact hr2.1)
    (by rw [show (4 : Nat) = 2 + 2 from rfl, runN_add]; exact hr2.2.1)
    (by rw [show (4 : Nat) = 2 + 2 from rfl, runN_add, hr2.2.2.1, hr1.2.2.1,
          hstep0, h3]; omega)
    (by rw [show (4 : Nat) = 2 + 2 from rfl, runN_add]; exact hr2.2.2.2.1)
  have h6 : runN cfg env 6 (initRun task png0) =
      runN cfg env 2 (runN cfg env 4 (initRun task png0)) := by
    rw [show (6 : Nat) = 4 + 2 from rfl, runN_add]
  have h64 : runN cfg env 4 (initRun task png0) =
      runN cfg env 2 (runN cfg env 2 (initRun task png0)) := by
    rw [show (4 : Nat) = 2 + 2 from rfl, runN_add]
  have hstep6 : (runN cfg env 6 (initRun task png0)).st.step = 3 := by
    rw [h6, hr3.2.2.1, h64, hr2.2.2.1, hr1.2.2.1, hstep0]
  have hnode6 : (runN cfg env 6 (initRun task png0)).node = Node.propose := by
    rw [h6]; exact hr3.1
  have hpl6 : (runN cfg env 6 (initRun task png0)).plannerCalls = 3 := by
    rw [h6, hr3.2.2.2.2.2, h64, hr2.2.2.2.2.2, hr1.2.2.2.2.2]
    rfl
  have hlim : cfg.step_limit ≤ (runN cfg env 6 (initRun task png0)).st.step := by
    rw [hstep6, h3]
  have hfinal := propose_steplimit cfg env (runN cfg env 6 (initRun task png0))
    hnode6 hlim
  have h7 : runN cfg env 7 (initRun task png0) =
      graphStep cfg env (runN cfg env 6 (initRun task png0)) := by
    rw [show (7 : Nat) = 6 + 1 from rfl, runN_add]
    rfl
  rw [h7, hfinal]
  have hmsg : ("Step limit reached: " ++ toString cfg.step_limit) =
      "Step limit reached: 3" := by
    rw [h3]
    decide
  refine ⟨rfl, hstep6, by rw [hmsg], rfl, hpl6, ?_⟩
  intro m
  rw [runN_terminal cfg env rfl m]
  exact hpl6

/-- Claim C4 counterexample: in the concrete scenario-B run the final
error string is `"Step limit reached: 3"`, which is not the claimed
`"step limit reached"`. -/
theorem C4_counterexample :
    (runN cfg4 env4 7 (initRun "t" [9])).st.error = some "Step limit reached: 3"
    ∧ (runN cfg4 env4 7 (initRun "t" [9])).st.error ≠ some "step limit reached"
    ∧ (runN cfg4 env4 7 (initRun "t" [9])).st.done = true
    ∧ (runN cfg4 env4 7 (initRun "t" [9])).st.step = 3 := by
  decide

/-- Witness for C4 (amended) in the concrete scenario-B environment. -/
theorem C4_witness :
    cfg4.step_limit = 3
    ∧ (runN cfg4 env4 7 (initRun "t" [9])).st.done = true
    ∧ (runN cfg4 env4 7 (initRun "t" [9])).st.step = 3
    ∧ (runN cfg4 env4 7 (initRun "t" [9])).st.error = some "Step limit reached: 3"
    ∧ (runN cfg4 env4 7 (initRun "t" [9])).plannerCalls = 3 := by
  have h := C4_amended cfg4 env4 "t" [9] rfl
    (fun k => ⟨respC4, rfl, by decide, rfl, rfl⟩)
    (fun k => by show (0 : Nat) < 300; decide)
    (fun k c => by show ([1] : Bytes) ≠ []; decide) (by decide)
  exact ⟨rfl, h.1, h.2.1, h.2.2.1, h.2.2.2.2.1⟩

/-- Claim C8: `requires_confirmation` is true iff the verdict is present
and its action field, case-insensitively, contains the substring
"confirm" or equals "require_confirmation"; `should_block` is true iff
that field matches block, deny or reject; an absent verdict (and the
`proceed` action) makes both false. -/
theorem C8_theorem (sd : Option SafetyDecision) :
    (requires_confirmation sd = true ↔
      ∃ d, sd = some d ∧
        (caseInsensitiveContains (d.action.getD "") "confirm" = true ∨
         lowerStr (d.action.getD "") = "require_confirmation"))
    ∧ (should_block sd = true ↔
      ∃ d, sd = some d ∧
        lowerStr (d.action.getD "") ∈ (["block", "deny", "reject"] : List String))
    ∧ requires_confirmation none = false
    ∧ should_block none = false
    ∧ requires_confirmation (some { action := some "proceed" }) = false
    ∧ should_block (some { action := some "proceed" }) = false := by
  refine ⟨?_, ?_, rfl, rfl, by decide, by decide⟩
  · cases sd with
    | none => simp [requires_confirmation]
    | some d =>
      have hl : lowerStr "confirm" = "confirm" := by decide
      simp [requires_confirmation, caseInsensitiveContains, hl,
        Bool.or_eq_true, beq_iff_eq]
  · cases sd with
    | none => simp [should_block]
    | some d =>
      simp [should_block, Bool.or_eq_true, beq_iff_eq, List.mem_cons, or_assoc]

/-- Claim C9: for positive axis sizes, `denorm_x 0 W = 0`,
`denorm_x 999 W` is the rounding of `999·W/1000` (with the spec's examples
1440 → 1439 and 1920 → 1918), `denorm` rounds to within half a unit, and
it is monotone non-decreasing in its first argument over 0..999. -/
theorem C9_theorem (W : Nat) (_hW : 0 < W) :
    denorm_x 0 W = 0
    ∧ denorm_x 999 1440 = 1439
    ∧ denorm_x 999 1920 = 1918
    ∧ denorm_x 999 W = pyRound1000 (999 * W)
    ∧ (∀ x, 2 * 1000 * denorm_x x W ≤ 2 * (x * W) + 1000
        ∧ 2 * (x * W) ≤ 2 * 1000 * denorm_x x W + 1000)
    ∧ (∀ x y, x ≤ y → y ≤ 999 → denorm_x x W ≤ denorm_x y W)
    ∧ (∀ x y, x ≤ y → y ≤ 999 → denorm_y x W ≤ denorm_y y W) := by
  refine ⟨by simp [denorm_x, pyRound1000], by decide, by decide, rfl, ?_, ?_, ?_⟩
  · intro x
    unfold denorm_x pyRound1000
    constructor <;> (split_ifs <;> omega)
  · intro x y hxy _
    exact pyRound1000_mono (mul_le_mul_right' hxy W)
  · intro x y hxy _
    exact pyRound1000_mono (mul_le_mul_right' hxy W)

/-- Witness for C9 at W = 1440: a concrete positive width with the
endpoint values and a concrete monotonicity instance. -/
theorem C9_witness :
    0 < 1440
    ∧ denorm_x 0 1440 = 0
    ∧ denorm_x 999 1440 = 1439
    ∧ denorm_x 500 1440 ≤ denorm_x 501 1440 := by
  refine ⟨by decide, (C9_theorem 1440 (by decide)).1,
    (C9_theorem 1440 (by decide)).2.1, ?_⟩
  exact (C9_theorem 1440 (by decide)).2.2.2.2.2.1 500 501 (by decide) (by decide)

/-- Claim C10: on a connected controller with a known screen size and a
working capture, `execute_action "open_web_browser"` succeeds for any
arguments, is not rejected as an unknown action, injects no input events,
and still captures a fresh frame; the action is nevertheless excluded
from the planner's tool set by default. -/
theorem C10_theorem (env : VncEnv) (s : VncState) (args : ActionArgs)
    (png : Bytes) (w h cw ch : Nat)
    (hconn : s.connected = true) (hsize : s.screenSize = some (w, h))
    (hcap : env.capture = some (png, cw, ch)) :
    (execute_action env s "open_web_browser" args).2.success = true
    ∧ (execute_action env s "open_web_browser" args).2.error = none
    ∧ (execute_action env s "open_web_browser" args).2.screenshot_png = png
    ∧ (execute_action env s "open_web_browser" args).1.events = s.events
    ∧ "open_web_browser" ∈ defaultExcludedActions := by
  obtain ⟨conn, size, events⟩ := s
  obtain ⟨cap⟩ := env
  simp only at hconn hsize hcap
  subst hconn hsize hcap
  refine ⟨rfl, rfl, rfl, rfl, by decide⟩

/-- Witness for C10: a concrete connected controller state. -/
theorem C10_witness :
    sampleVncState.connected = true
    ∧ (execute_action sampleVncEnv sampleVncState "open_web_browser" {}).2.success = true
    ∧ (execute_action sampleVncEnv sampleVncState "open_web_browser" {}).1.events = [] := by
  have h := C10_theorem sampleVncEnv sampleVncState {} [7] 1440 900 1440 900 rfl rfl rfl
  exact ⟨rfl, h.1, h.2.2.2.1⟩

end VncUse
